import Mathlib

/-!
Verification development for the Panther Cloud Air flight-network repository
(`airport_reference.py` and `flight_network.py`).

Modelling conventions:
* Python floats that only feed arithmetic comparisons and sums are modelled as
  rationals (`ℚ`); the transcendental haversine computation is modelled over the
  reals (`ℝ`) with `Real.sin`, `Real.cos`, `Real.arcsin`, `Real.sqrt`.
* `generate_flight_network` and its helpers call the module-level
  `get_distance`.  They consume its output only through truthiness tests,
  comparisons and additions, so they are embedded parametrically over a
  distance oracle `DistOracle : String → String → Option ℚ` (`none` models
  Python `None`); this keeps the generator executable so that concrete runs
  can be evaluated by `decide`.
* `float infinity`, the initial value of `min_distance` in
  `calculate_minimum_distance_through_hubs`, is modelled by the two-point
  extension `PyExt` of `ℚ`, together with exactly the operations the source
  applies to it: comparison with a finite float, the `> 0` test
  (`inf > 0` is `True` in Python), and division of a finite float by it
  (`x / inf` is `0.0` in Python).
* Python set objects (`processed_pairs`) are modelled as duplicate-free lists;
  only membership is ever queried.
-/

/-- Airport record from `airport_reference.py` (`class Airport`).  Coordinates
are modelled as rationals (the source stores decimal literals). -/
structure Airport where
  iata : String
  name : String
  city : String
  state : String
  latitude : ℚ
  longitude : ℚ
  metro_area : String
deriving DecidableEq, Repr

/-- The `AIRPORTS` dictionary from `airport_reference.py`: the top 30 US
airports plus Charles de Gaulle, keyed by upper-case IATA code. -/
def AIRPORTS : List (String × Airport) := [
  (("ATL"), ⟨("ATL"), ("Hartsfield-Jackson Atlanta International Airport"), ("Atlanta"), ("GA"), 33.6407, -84.4277, ("Metro Atlanta")⟩),
  (("DFW"), ⟨("DFW"), ("Dallas/Fort Worth International Airport"), ("Dallas and Fort Worth"), ("TX"), 32.8998, -97.0403, ("Dallas-Fort Worth")⟩),
  (("DEN"), ⟨("DEN"), ("Denver International Airport"), ("Denver"), ("CO"), 39.8561, -104.6737, ("Greater Denver")⟩),
  (("ORD"), ⟨("ORD"), ("O\x27Hare International Airport"), ("Chicago"), ("IL"), 41.9786, -87.9048, ("Chicagoland")⟩),
  (("LAX"), ⟨("LAX"), ("Los Angeles International Airport"), ("Los Angeles"), ("CA"), 33.9425, -118.4081, ("Greater Los Angeles")⟩),
  (("JFK"), ⟨("JFK"), ("John F. Kennedy International Airport"), ("New York City"), ("NY"), 40.6413, -73.7781, ("New York Metro")⟩),
  (("CLT"), ⟨("CLT"), ("Charlotte Douglas International Airport"), ("Charlotte"), ("NC"), 35.2144, -80.9473, ("Greater Charlotte")⟩),
  (("LAS"), ⟨("LAS"), ("Harry Reid International Airport"), ("Las Vegas"), ("NV"), 36.0840, -115.1537, ("Las Vegas Valley")⟩),
  (("MCO"), ⟨("MCO"), ("Orlando International Airport"), ("Orlando"), ("FL"), 28.4312, -81.3083, ("Greater Orlando")⟩),
  (("MIA"), ⟨("MIA"), ("Miami International Airport"), ("Miami"), ("FL"), 25.7959, -80.2870, ("Miami Metro")⟩),
  (("PHX"), ⟨("PHX"), ("Phoenix Sky Harbor International Airport"), ("Phoenix"), ("AZ"), 33.4342, -112.0116, ("Metro Phoenix")⟩),
  (("SEA"), ⟨("SEA"), ("Seattle-Tacoma International Airport"), ("Seattle and Tacoma"), ("WA"), 47.4502, -122.3088, ("Seattle Metro")⟩),
  (("SFO"), ⟨("SFO"), ("San Francisco International Airport"), ("San Francisco"), ("CA"), 37.6213, -122.3790, ("San Francisco Bay Area")⟩),
  (("EWR"), ⟨("EWR"), ("Newark Liberty International Airport"), ("Newark and New York City"), ("NJ"), 40.6895, -74.1745, ("New York Metro")⟩),
  (("IAH"), ⟨("IAH"), ("George Bush Intercontinental Airport"), ("Houston"), ("TX"), 29.9844, -95.3414, ("Greater Houston")⟩),
  (("BOS"), ⟨("BOS"), ("Logan International Airport"), ("Boston"), ("MA"), 42.3656, -71.0096, ("Greater Boston")⟩),
  (("MSP"), ⟨("MSP"), ("Minneapolis-Saint Paul International Airport"), ("Minneapolis and Saint Paul"), ("MN"), 44.8848, -93.2223, ("Minneapolis-Saint Paul")⟩),
  (("FLL"), ⟨("FLL"), ("Fort Lauderdale-Hollywood International Airport"), ("Fort Lauderdale and Hollywood"), ("FL"), 26.0712, -80.1528, ("Miami Metro")⟩),
  (("LGA"), ⟨("LGA"), ("LaGuardia Airport"), ("New York City"), ("NY"), 40.7769, -73.8740, ("New York Metro")⟩),
  (("DTW"), ⟨("DTW"), ("Detroit Metropolitan Airport"), ("Detroit"), ("MI"), 42.2162, -83.3554, ("Detroit Metro")⟩),
  (("PHL"), ⟨("PHL"), ("Philadelphia International Airport"), ("Philadelphia"), ("PA"), 39.8719, -75.2411, ("Philadelphia Metro")⟩),
  (("SLC"), ⟨("SLC"), ("Salt Lake City International Airport"), ("Salt Lake City"), ("UT"), 40.7899, -111.9791, ("Wasatch Front")⟩),
  (("BWI"), ⟨("BWI"), ("Baltimore-Washington International Airport"), ("Baltimore and Washington, D.C."), ("MD"), 39.1774, -76.6684, ("Baltimore metropolitan area")⟩),
  (("IAD"), ⟨("IAD"), ("Dulles International Airport"), ("Washington, D.C."), ("VA"), 38.9531, -77.4565, ("Washington Metro")⟩),
  (("SAN"), ⟨("SAN"), ("San Diego International Airport"), ("San Diego"), ("CA"), 32.7338, -117.1933, ("Greater San Diego")⟩),
  (("DCA"), ⟨("DCA"), ("Ronald Reagan Washington National Airport"), ("Washington, D.C."), ("VA"), 38.8512, -77.0402, ("Washington Metro")⟩),
  (("TPA"), ⟨("TPA"), ("Tampa International Airport"), ("Tampa"), ("FL"), 27.9755, -82.5332, ("Tampa Bay area")⟩),
  (("BNA"), ⟨("BNA"), ("Nashville International Airport"), ("Nashville"), ("TN"), 36.1263, -86.6774, ("Greater Nashville")⟩),
  (("AUS"), ⟨("AUS"), ("Austin-Bergstrom International Airport"), ("Austin"), ("TX"), 30.1945, -97.6699, ("Greater Austin")⟩),
  (("HNL"), ⟨("HNL"), ("Daniel K. Inouye International Airport"), ("Honolulu"), ("HI"), 21.3206, -157.9242, ("Oahu")⟩),
  (("CDG"), ⟨("CDG"), ("Charles de Gaulle Airport"), ("Paris"), ("France"), 49.0097, 2.5479, ("Paris Metropolitan Area")⟩)]

/-- Python `str.upper()` on the ASCII strings used as IATA codes. -/
def strUpper (s : String) : String := ⟨s.data.map Char.toUpper⟩

/-- Python `str.lower()` on the ASCII strings used as unit selectors. -/
def strLower (s : String) : String := ⟨s.data.map Char.toLower⟩

/-- Function `get_airport` from `airport_reference.py`: `AIRPORTS.get(iata.upper())`. -/
def get_airport (iata : String) : Option Airport :=
  AIRPORTS.lookup (strUpper iata)

/-- Function `math.radians`: degrees to radians. -/
noncomputable def radians (x_deg : ℝ) : ℝ := x_deg * (Real.pi / 180)

/-- The intermediate term `a` of the haversine formula in
`haversine_distance` (`airport_reference.py`, lines 167-168). -/
noncomputable def haversine_a (lat1 lon1 lat2 lon2 : ℝ) : ℝ :=
  let lat1_rad := radians lat1
  let lon1_rad := radians lon1
  let lat2_rad := radians lat2
  let lon2_rad := radians lon2
  let dlat := lat2_rad - lat1_rad
  let dlon := lon2_rad - lon1_rad
  Real.sin (dlat / 2) ^ 2 +
    Real.cos lat1_rad * Real.cos lat2_rad * Real.sin (dlon / 2) ^ 2

/-- Function `haversine_distance` from `airport_reference.py`: Earth radius 3958.8
miles, `c = 2 * asin(sqrt(a))`, result `R * c`. -/
noncomputable def haversine_distance (lat1 lon1 lat2 lon2 : ℝ) : ℝ :=
  let a := haversine_a lat1 lon1 lat2 lon2
  let c := 2 * Real.arcsin (Real.sqrt a)
  3958.8 * c

/-- Function `get_distance` from `airport_reference.py`: resolves both codes via
`get_airport` (returning `none` if either fails), applies the haversine
calculator to the coordinates, and multiplies by 1.60934 when the unit string
lower-cases to "kilometers" or "km". -/
noncomputable def get_distance (iata1 iata2 unit : String) : Option ℝ :=
  match get_airport iata1, get_airport iata2 with
  | some airport1, some airport2 =>
    let distance_miles := haversine_distance (airport1.latitude : ℝ)
      (airport1.longitude : ℝ) (airport2.latitude : ℝ) (airport2.longitude : ℝ)
    if strLower unit = ("kilometers") ∨ strLower unit = ("km") then
      some (distance_miles * 1.60934)
    else some distance_miles
  | _, _ => none

/-! ### The network generator (`flight_network.py`) -/

/-- Constant `US_AIRPORTS` from `flight_network.py`. -/
def US_AIRPORTS : List String := [
  ("ATL"), ("DFW"), ("DEN"), ("ORD"), ("LAX"), ("JFK"), ("CLT"), ("LAS"), ("MCO"), ("MIA"),
  ("PHX"), ("SEA"), ("SFO"), ("EWR"), ("IAH"), ("BOS"), ("MSP"), ("FLL"), ("LGA"), ("DTW"),
  ("PHL"), ("SLC"), ("BWI"), ("IAD"), ("SAN"), ("DCA"), ("TPA"), ("BNA"), ("AUS"), ("HNL")]

/-- Constant `MAJOR_HUBS` from `flight_network.py`. -/
def MAJOR_HUBS : List String := [("ATL"), ("DFW"), ("DEN"), ("ORD")]

/-- Record `class Flight` from `flight_network.py` (distance as a rational). -/
structure Flight where
  origin : String
  destination : String
  distance : ℚ
  is_direct : Bool
  via_hub : Option String
deriving DecidableEq, Repr

/-- Abstraction of the module-level `get_distance` as consumed by the
generator: a two-code distance oracle, `none` modelling Python `None`. -/
def DistOracle : Type := String → String → Option ℚ

/-- Python truthiness of an optional float: `None` and `0.0` are falsy,
every other float is truthy (used by `if dist1 and dist2:` and
`if distance and distance >= 150:`). -/
def otruthy : Option ℚ → Bool
  | none => false
  | some q => decide (q ≠ 0)

/-- A Python float value restricted to what `min_distance` in
`calculate_minimum_distance_through_hubs` can hold: a finite value (rational
model) or `float infinity`, its initial value. -/
inductive PyExt where
  | fin (q : ℚ)
  | inf
deriving DecidableEq, Repr

/-- Comparison `q < e` for a finite float `q` (`total_distance < min_distance`): every
finite float is less than `float infinity`. -/
def PyExt.ltOf (q : ℚ) : PyExt → Bool
  | fin r => decide (q < r)
  | inf => true

/-- Test `e > 0` (`hub_distance > 0`): in Python `float infinity > 0` is `True`. -/
def PyExt.gtZero : PyExt → Bool
  | fin r => decide (0 < r)
  | inf => true

/-- Division `x / e` for a finite float `x` (`direct_distance / hub_distance`): in
Python a finite float divided by `float infinity` is `0.0`. -/
def PyExt.divFin (x_val : ℚ) : PyExt → ℚ
  | fin r => x_val / r
  | inf => 0

/-- Loop body of `calculate_minimum_distance_through_hubs`: skip a hub that
equals the origin or the destination, skip legs whose distances are not both
truthy, otherwise keep the smaller total. -/
def hubMinStep (dOr : DistOracle) (origin destination : String)
    (acc : PyExt × Option String) (hub : String) : PyExt × Option String :=
  if hub = origin ∨ hub = destination then acc
  else
    let dist1 := dOr origin hub
    let dist2 := dOr hub destination
    if otruthy dist1 && otruthy dist2 then
      let total_distance := dist1.getD 0 + dist2.getD 0
      if PyExt.ltOf total_distance acc.1 then (PyExt.fin total_distance, some hub)
      else acc
    else acc

/-- Function `calculate_minimum_distance_through_hubs` from `flight_network.py`:
fold of `hubMinStep` starting from `(float infinity, None)`. -/
def calculate_minimum_distance_through_hubs (dOr : DistOracle)
    (origin destination : String) (hubs : List String) : PyExt × Option String :=
  hubs.foldl (hubMinStep dOr origin destination) (PyExt.inf, none)

/-- Function `should_create_direct_flight` from `flight_network.py`.  Note the guard
`hub_distance > 0` is satisfied by `float infinity`, in which case the
efficiency ratio is `direct_distance / inf = 0.0`. -/
def should_create_direct_flight (dOr : DistOracle) (origin destination : String)
    (direct_distance : ℚ) (hubs : List String) : Bool :=
  if direct_distance < 150 then false
  else
    let hub_distance := (calculate_minimum_distance_through_hubs dOr origin destination hubs).1
    if direct_distance < 1000 then true
    else
      let efficiency_ratio : ℚ :=
        if hub_distance.gtZero then PyExt.divFin direct_distance hub_distance else 1.0
      decide (efficiency_ratio ≤ 0.85)

/-- Generator state: the `flights` list and the `processed_pairs` set (the
set is modelled as a list, queried only through membership). -/
structure GenState where
  flights : List Flight
  processed : List (String × String)
deriving DecidableEq, Repr

/-- Operation `set.add` on the processed-pairs set. -/
def addPair (s : List (String × String)) (p : String × String) :
    List (String × String) :=
  if p ∈ s then s else p :: s

/-- The upper-triangle pair enumeration
`for i, a in enumerate(L): for b in L[i+1:]`. -/
def upperPairs : List String → List (String × String)
  | [] => []
  | x :: xs => xs.map (fun y => (x, y)) ++ upperPairs xs

/-- Pass 1 loop body of `generate_flight_network` (lines 125-132): for a hub
pair, if the distance is truthy and at least 150, append the single edge
`hub1 -> hub2` and mark both orientations processed. -/
def hubPairStep (dOr : DistOracle) (s : GenState) (p : String × String) : GenState :=
  let hub1 := p.1
  let hub2 := p.2
  match dOr hub1 hub2 with
  | some distance =>
    if distance ≠ 0 ∧ 150 ≤ distance then
      { flights := s.flights ++ [⟨hub1, hub2, distance, true, none⟩],
        processed := addPair (addPair s.processed (hub1, hub2)) (hub2, hub1) }
    else s
  | none => s

/-- Pass 2 inner loop body of `generate_flight_network` (lines 140-146):
append edges in both directions between a non-hub airport and a hub when the
distance is truthy and at least 150. -/
def spokeHubStep (dOr : DistOracle) (airport : String) (s : GenState)
    (hub : String) : GenState :=
  match dOr airport hub with
  | some distance =>
    if distance ≠ 0 ∧ 150 ≤ distance then
      { flights := s.flights ++
          [⟨airport, hub, distance, true, none⟩, ⟨hub, airport, distance, true, none⟩],
        processed := addPair (addPair s.processed (airport, hub)) (hub, airport) }
    else s
  | none => s

/-- Pass 2 outer loop body: skip airports that are themselves hubs. -/
def spokeStep (dOr : DistOracle) (s : GenState) (airport : String) : GenState :=
  if airport ∈ MAJOR_HUBS then s
  else MAJOR_HUBS.foldl (spokeHubStep dOr airport) s

/-- Pass 3 loop body of `generate_flight_network` (lines 154-177): skip pairs
already processed or touching a hub; otherwise, when the direct distance is
truthy and at least 150 and `should_create_direct_flight` accepts, append the
edge pair and mark both orientations processed. -/
def directPairStep (dOr : DistOracle) (s : GenState) (p : String × String) : GenState :=
  let origin := p.1
  let destination := p.2
  if (origin, destination) ∈ s.processed then s
  else if origin ∈ MAJOR_HUBS ∧ destination ∈ MAJOR_HUBS then s
  else if origin ∈ MAJOR_HUBS ∨ destination ∈ MAJOR_HUBS then s
  else
    match dOr origin destination with
    | some direct_distance =>
      if direct_distance ≠ 0 ∧ 150 ≤ direct_distance then
        if should_create_direct_flight dOr origin destination direct_distance MAJOR_HUBS then
          { flights := s.flights ++
              [⟨origin, destination, direct_distance, true, none⟩,
               ⟨destination, origin, direct_distance, true, none⟩],
            processed := addPair (addPair s.processed (origin, destination))
              (destination, origin) }
        else s
      else s
    | none => s

/-- Function `generate_flight_network` from `flight_network.py`, with the final state
(flight list and processed-pairs set) exposed: the three passes in order. -/
def generate_state (dOr : DistOracle) : GenState :=
  let s1 := (upperPairs MAJOR_HUBS).foldl (hubPairStep dOr) ⟨[], []⟩
  let s2 := US_AIRPORTS.foldl (spokeStep dOr) s1
  (upperPairs US_AIRPORTS).foldl (directPairStep dOr) s2

/-- The flight list returned by `generate_flight_network`. -/
def generate_flight_network (dOr : DistOracle) : List Flight :=
  (generate_state dOr).flights

/-- A route option dictionary built by `get_route_options`. -/
structure RouteOption where
  type : String
  route : List String
  distance : ℚ
  stops : Nat
  hub : Option String
deriving DecidableEq, Repr

/-- The option list built by `get_route_options` before sorting: a direct
option from the first matching direct edge, then a hub-connection option for
every hub (other than the endpoints) with both legs present, in hub-list
order (mirrors the two appending phases of the source). -/
def routeCandidates (origin destination : String) (flights : List Flight) :
    List RouteOption :=
  let direct_flights := flights.filter
    (fun f => f.origin == origin && f.destination == destination && f.is_direct)
  let directOpts : List RouteOption :=
    match direct_flights with
    | f :: _ => [⟨("direct"), [origin, destination], f.distance, 0, none⟩]
    | [] => []
  let hubOpts : List RouteOption := MAJOR_HUBS.filterMap (fun hub =>
    if hub = origin ∨ hub = destination then none
    else
      match flights.filter (fun f => f.origin == origin && f.destination == hub),
            flights.filter (fun f => f.origin == hub && f.destination == destination) with
      | f1 :: _, f2 :: _ =>
        some ⟨("hub_connection"), [origin, hub, destination],
          f1.distance + f2.distance, 1, some hub⟩
      | _, _ => none)
  directOpts ++ hubOpts

/-- Function `get_route_options` from `flight_network.py`: the candidate options
sorted ascending by distance (Python `list.sort`, a stable merge sort). -/
def get_route_options (origin destination : String) (flights : List Flight) :
    List RouteOption :=
  (routeCandidates origin destination flights).mergeSort
    (fun a b => decide (a.distance ≤ b.distance))

/-- Violation message built by `verify_network_constraints`.  The Python
message also embeds the distance formatted to two decimals; the claims only
depend on whether the list is empty, so the numeric rendering is kept
abstract as `toString`. -/
def violationMsg (f : Flight) : String :=
  f.origin ++ (" -> ") ++ f.destination ++ (": ") ++ toString f.distance ++ (" miles")

/-- Function `verify_network_constraints` from `flight_network.py`: collect a message
for every flight under 150 miles; valid iff no violations. -/
def verify_network_constraints (flights : List Flight) : Bool × List String :=
  let violations := (flights.filter (fun f => decide (f.distance < 150))).map violationMsg
  (violations.isEmpty, violations)

/-! ### Concrete distance oracles used for witnesses and counterexamples -/

/-- Oracle resolving no pair at all (every lookup fails). -/
def dNone : DistOracle := fun _ _ => none

/-- Oracle resolving every pair to exactly 0 miles. -/
def dZero : DistOracle := fun _ _ => some 0

/-- Oracle resolving only hub-to-hub pairs, each at 1000 miles. -/
def dHubOnly : DistOracle := fun a b =>
  if MAJOR_HUBS.contains a && MAJOR_HUBS.contains b then some 1000 else none

/-- Oracle for the pass-3 rejection scenario: legs touching LAX or JFK and a
hub measure 1000 miles, the LAX-JFK pair measures 2000 miles (so its hub
routing is exactly as long as the direct route and the 0.85 test fails);
everything else is unresolved. -/
def dReject : DistOracle := fun a b =>
  if (a == ("LAX") || a == ("JFK")) && MAJOR_HUBS.contains b then some 1000
  else if MAJOR_HUBS.contains a && (b == ("LAX") || b == ("JFK")) then some 1000
  else if a == ("LAX") && b == ("JFK") then some 2000
  else none

/-- Oracle for the pass-3 acceptance scenario: hub legs measure 1500 miles,
every other pair 2000 miles (ratio 2000/3000 passes the 0.85 test). -/
def dAccept : DistOracle := fun a b =>
  if MAJOR_HUBS.contains a || MAJOR_HUBS.contains b then some 1500 else some 2000

/-! ### Generic fold and set helpers -/

/-- Invariant preservation along `List.foldl`, with access to the fact that
each processed element belongs to the folded list. -/
theorem foldl_preserves {σ α : Type _} (f : σ → α → σ) (P : σ → Prop) :
    ∀ (l : List α) (s : σ), (∀ s' x, x ∈ l → P s' → P (f s' x)) → P s →
      P (l.foldl f s)
  | [], _, _, hs => hs
  | x :: xs, s, h, hs =>
    foldl_preserves f P xs (f s x)
      (fun s' y hy => h s' y (List.mem_cons_of_mem x hy))
      (h s x (List.mem_cons_self x xs) hs)

/-- Membership in the processed-pairs set after a `set.add`. -/
theorem addPair_mem_iff (s : List (String × String)) (q p : String × String) :
    p ∈ addPair s q ↔ p = q ∨ p ∈ s := by
  unfold addPair
  split
  · constructor
    · exact fun h => Or.inr h
    · rintro (rfl | h)
      · assumption
      · assumption
  · simp [eq_comm]

/-! ### Per-claim helper lemmas -/

/-- If no hub (other than the endpoints) has two truthy legs, the minimum
search never leaves its initial state `(float infinity, None)`. -/
theorem calcmin_no_hub (dOr : DistOracle) (origin destination : String) :
    ∀ hubs : List String,
      (∀ hub ∈ hubs, hub ≠ origin → hub ≠ destination →
        otruthy (dOr origin hub) = false ∨ otruthy (dOr hub destination) = false) →
      calculate_minimum_distance_through_hubs dOr origin destination hubs =
        (PyExt.inf, none) := by
  intro hubs
  unfold calculate_minimum_distance_through_hubs
  induction hubs with
  | nil => intro _; rfl
  | cons hub rest ih =>
    intro hno
    have hstep : hubMinStep dOr origin destination (PyExt.inf, none) hub =
        (PyExt.inf, none) := by
      unfold hubMinStep
      split
      · rfl
      · rename_i hne
        push_neg at hne
        rcases hno hub (List.mem_cons_self hub rest) hne.1 hne.2 with h | h <;>
          simp [h]
    rw [List.foldl_cons, hstep]
    exact ih (fun h hm => hno h (List.mem_cons_of_mem hub hm))

/-- C1 counterexample: with every leg unresolvable (so no hub qualifies) and a
direct distance of 2000 miles, `should_create_direct_flight` returns `True`
(the minimum stays at `float infinity`, which passes the `> 0` guard, giving
ratio `2000 / inf = 0.0 ≤ 0.85`), not `False` as claimed. -/
theorem c1_counterexample :
    (1000 : ℚ) ≤ 2000 ∧
    (MAJOR_HUBS.all (fun hub =>
      !(otruthy (dNone ("LAX") hub) && otruthy (dNone hub ("JFK"))))) = true ∧
    calculate_minimum_distance_through_hubs dNone ("LAX") ("JFK") MAJOR_HUBS =
      (PyExt.inf, none) ∧
    should_create_direct_flight dNone ("LAX") ("JFK") 2000 MAJOR_HUBS = true := by
  with_unfolding_all decide

/-- C1 (amended): for a pair at distance ≥ 1000 miles for which no hub other
than the endpoints has two truthy leg distances, the hub distance stays at
`float infinity`: the `> 0` guard accepts it, the efficiency ratio is
`direct / inf = 0.0`, which passes the `≤ 0.85` test, so
`should_create_direct_flight` returns `True` and the direct flight IS created. -/
theorem c1_amended (dOr : DistOracle) (origin destination : String)
    (direct_distance : ℚ) (hubs : List String)
    (hbig : 1000 ≤ direct_distance)
    (hno : ∀ hub ∈ hubs, hub ≠ origin → hub ≠ destination →
      otruthy (dOr origin hub) = false ∨ otruthy (dOr hub destination) = false) :
    should_create_direct_flight dOr origin destination direct_distance hubs = true := by
  have hcalc := calcmin_no_hub dOr origin destination hubs hno
  unfold should_create_direct_flight
  rw [if_neg (by linarith : ¬ direct_distance < 150), hcalc,
    if_neg (by linarith : ¬ direct_distance < 1000)]
  show decide ((if PyExt.gtZero PyExt.inf then
    PyExt.divFin direct_distance PyExt.inf else 1.0) ≤ 0.85) = true
  rw [show PyExt.gtZero PyExt.inf = true from rfl, if_pos rfl,
    show PyExt.divFin direct_distance PyExt.inf = 0 from rfl]
  exact decide_eq_true (by norm_num)

/-- C1 witness: the amended claim applied to the all-unresolved oracle at the
pair LAX-JFK with direct distance 2000. -/
theorem c1_witness :
    should_create_direct_flight dNone ("LAX") ("JFK") 2000 MAJOR_HUBS = true :=
  c1_amended dNone ("LAX") ("JFK") 2000 MAJOR_HUBS (by norm_num)
    (fun _ _ _ _ => Or.inl rfl)

/-- C5: the generator is a pure function of its distance oracle (the only
input it consumes besides the fixed code lists): two invocations with the
same inputs produce identical edge sequences, in content and order. -/
theorem c5_theorem (d1 d2 : DistOracle) (h : d1 = d2) :
    generate_flight_network d1 = generate_flight_network d2 := by rw [h]

/-- C5 witness: determinism instantiated at a concrete oracle. -/
theorem c5_witness :
    generate_flight_network dNone = generate_flight_network dNone :=
  c5_theorem dNone dNone rfl

/-- C10: a successfully computed distance of exactly 0 is rejected by the
same truthiness guards that reject an unresolved code: the hub-leg candidate
is skipped in the minimum search, a zero-distance hub pair adds no edge, and
a zero-distance non-hub pair adds no edge and is not marked processed (the
loop body returns the state unchanged in each case, exactly as for `None`). -/
theorem c10_theorem :
    (∀ (dOr : DistOracle) (origin destination : String)
        (acc : PyExt × Option String) (hub : String),
      dOr origin hub = some 0 ∨ dOr origin hub = none ∨
        dOr hub destination = some 0 ∨ dOr hub destination = none →
      hubMinStep dOr origin destination acc hub = acc) ∧
    (∀ (dOr : DistOracle) (s : GenState) (hub1 hub2 : String),
      dOr hub1 hub2 = some 0 ∨ dOr hub1 hub2 = none →
      hubPairStep dOr s (hub1, hub2) = s) ∧
    (∀ (dOr : DistOracle) (s : GenState) (origin destination : String),
      dOr origin destination = some 0 ∨ dOr origin destination = none →
      directPairStep dOr s (origin, destination) = s) := by
  refine ⟨?_, ?_, ?_⟩
  · intro dOr origin destination acc hub h
    unfold hubMinStep
    split
    · rfl
    · rcases h with h | h | h | h <;> simp [h, otruthy]
  · intro dOr s hub1 hub2 h
    unfold hubPairStep
    rcases h with h | h <;> simp [h]
  · intro dOr s origin destination h
    unfold directPairStep
    dsimp only
    split
    · rfl
    · split
      · rfl
      · split
        · rfl
        · rcases h with h | h <;> simp [h]

/-- C10 witness: the three skip behaviours at the all-zero oracle. -/
theorem c10_witness :
    hubMinStep dZero ("LAX") ("JFK") (PyExt.inf, none) ("ATL") = (PyExt.inf, none) ∧
    hubPairStep dZero ⟨[], []⟩ ((("ATL"), ("DFW"))) = ⟨[], []⟩ ∧
    directPairStep dZero ⟨[], []⟩ ((("LAX"), ("JFK"))) = ⟨[], []⟩ :=
  ⟨c10_theorem.1 dZero _ _ _ _ (Or.inl rfl),
   c10_theorem.2.1 dZero _ _ _ (Or.inl rfl),
   c10_theorem.2.2 dZero _ _ _ (Or.inl rfl)⟩

/-- Step `hubPairStep` only appends flights: membership is preserved. -/
theorem flights_mono_hubPairStep (dOr : DistOracle) (s : GenState)
    (p : String × String) (fl : Flight) (h : fl ∈ s.flights) :
    fl ∈ (hubPairStep dOr s p).flights := by
  unfold hubPairStep
  dsimp only
  split
  · split
    · exact List.mem_append_left _ h
    · exact h
  · exact h

/-- Step `spokeHubStep` only appends flights: membership is preserved. -/
theorem flights_mono_spokeHubStep (dOr : DistOracle) (airport : String)
    (s : GenState) (hub : String) (fl : Flight) (h : fl ∈ s.flights) :
    fl ∈ (spokeHubStep dOr airport s hub).flights := by
  unfold spokeHubStep
  split
  · split
    · exact List.mem_append_left _ h
    · exact h
  · exact h

/-- Step `spokeStep` only appends flights: membership is preserved. -/
theorem flights_mono_spokeStep (dOr : DistOracle) (s : GenState)
    (airport : String) (fl : Flight) (h : fl ∈ s.flights) :
    fl ∈ (spokeStep dOr s airport).flights := by
  unfold spokeStep
  split
  · exact h
  · exact foldl_preserves _ (fun s' => fl ∈ s'.flights) MAJOR_HUBS s
      (fun s' x _ hx => flights_mono_spokeHubStep dOr airport s' x fl hx) h

/-- Step `directPairStep` only appends flights: membership is preserved. -/
theorem flights_mono_directPairStep (dOr : DistOracle) (s : GenState)
    (p : String × String) (fl : Flight) (h : fl ∈ s.flights) :
    fl ∈ (directPairStep dOr s p).flights := by
  unfold directPairStep
  dsimp only
  split
  · exact h
  · split
    · exact h
    · split
      · exact h
      · split
        · split
          · split
            · exact List.mem_append_left _ h
            · exact h
          · exact h
        · exact h

/-- Every flight appended by `hubPairStep` passed the `>= 150` guard. -/
theorem dist_inv_hubPairStep (dOr : DistOracle) (s : GenState) (p : String × String)
    (h : ∀ f ∈ s.flights, 150 ≤ f.distance) :
    ∀ f ∈ (hubPairStep dOr s p).flights, 150 ≤ f.distance := by
  intro f hf
  unfold hubPairStep at hf
  dsimp only at hf
  rcases hm : dOr p.1 p.2 with _ | dist
  · rw [hm] at hf; exact h f hf
  · rw [hm] at hf
    dsimp only at hf
    by_cases hg : dist ≠ 0 ∧ 150 ≤ dist
    · rw [if_pos hg] at hf
      rcases List.mem_append.mp hf with h1 | h2
      · exact h f h1
      · rw [List.mem_singleton.mp h2]; exact hg.2
    · rw [if_neg hg] at hf; exact h f hf

/-- Every flight appended by `spokeHubStep` passed the `>= 150` guard. -/
theorem dist_inv_spokeHubStep (dOr : DistOracle) (airport : String) (s : GenState)
    (hub : String) (h : ∀ f ∈ s.flights, 150 ≤ f.distance) :
    ∀ f ∈ (spokeHubStep dOr airport s hub).flights, 150 ≤ f.distance := by
  intro f hf
  unfold spokeHubStep at hf
  rcases hm : dOr airport hub with _ | dist
  · rw [hm] at hf; exact h f hf
  · rw [hm] at hf
    dsimp only at hf
    by_cases hg : dist ≠ 0 ∧ 150 ≤ dist
    · rw [if_pos hg] at hf
      rcases List.mem_append.mp hf with h1 | h2
      · exact h f h1
      · rcases List.mem_cons.mp h2 with heq | h3
        · rw [heq]; exact hg.2
        · rw [List.mem_singleton.mp h3]; exact hg.2
    · rw [if_neg hg] at hf; exact h f hf

/-- Every flight appended by `spokeStep` passed the `>= 150` guard. -/
theorem dist_inv_spokeStep (dOr : DistOracle) (s : GenState) (airport : String)
    (h : ∀ f ∈ s.flights, 150 ≤ f.distance) :
    ∀ f ∈ (spokeStep dOr s airport).flights, 150 ≤ f.distance := by
  unfold spokeStep
  split
  · exact h
  · exact foldl_preserves _ (fun s' => ∀ f ∈ s'.flights, 150 ≤ f.distance)
      MAJOR_HUBS s (fun s' x _ hx => dist_inv_spokeHubStep dOr airport s' x hx) h

/-- Every flight appended by `directPairStep` passed the `>= 150` guard. -/
theorem dist_inv_directPairStep (dOr : DistOracle) (s : GenState) (p : String × String)
    (h : ∀ f ∈ s.flights, 150 ≤ f.distance) :
    ∀ f ∈ (directPairStep dOr s p).flights, 150 ≤ f.distance := by
  intro f hf
  unfold directPairStep at hf
  dsimp only at hf
  by_cases h1 : (p.1, p.2) ∈ s.processed
  · rw [if_pos h1] at hf; exact h f hf
  · rw [if_neg h1] at hf
    by_cases h2 : p.1 ∈ MAJOR_HUBS ∧ p.2 ∈ MAJOR_HUBS
    · rw [if_pos h2] at hf; exact h f hf
    · rw [if_neg h2] at hf
      by_cases h3 : p.1 ∈ MAJOR_HUBS ∨ p.2 ∈ MAJOR_HUBS
      · rw [if_pos h3] at hf; exact h f hf
      · rw [if_neg h3] at hf
        rcases hm : dOr p.1 p.2 with _ | dist
        · rw [hm] at hf; exact h f hf
        · rw [hm] at hf
          dsimp only at hf
          by_cases hg : dist ≠ 0 ∧ 150 ≤ dist
          · rw [if_pos hg] at hf
            by_cases hs : should_create_direct_flight dOr p.1 p.2 dist MAJOR_HUBS = true
            · rw [if_pos hs] at hf
              rcases List.mem_append.mp hf with ha | hb
              · exact h f ha
              · rcases List.mem_cons.mp hb with heq | hb2
                · rw [heq]; exact hg.2
                · rw [List.mem_singleton.mp hb2]; exact hg.2
            · rw [if_neg hs] at hf; exact h f hf
          · rw [if_neg hg] at hf; exact h f hf

/-- Every flight produced by the generator is at least 150 miles long. -/
theorem generate_dist_inv (dOr : DistOracle) :
    ∀ f ∈ (generate_state dOr).flights, 150 ≤ f.distance := by
  unfold generate_state
  exact foldl_preserves _ (fun s => ∀ f ∈ s.flights, 150 ≤ f.distance) _ _
    (fun s' x _ hx => dist_inv_directPairStep dOr s' x hx)
    (foldl_preserves _ _ _ _
      (fun s' x _ hx => dist_inv_spokeStep dOr s' x hx)
      (foldl_preserves _ _ _ (⟨[], []⟩ : GenState)
        (fun s' x _ hx => dist_inv_hubPairStep dOr s' x hx)
        (fun f hf => absurd hf (List.not_mem_nil f))))

/-- Flights whose endpoints are both hubs only arise from pass 1, in the
orientation enumerated by the upper-triangle hub loop. -/
theorem hub_inv_hubPairStep (dOr : DistOracle) (s : GenState) (p : String × String)
    (hp : p ∈ upperPairs MAJOR_HUBS)
    (h : ∀ f ∈ s.flights, f.origin ∈ MAJOR_HUBS → f.destination ∈ MAJOR_HUBS →
      (f.origin, f.destination) ∈ upperPairs MAJOR_HUBS) :
    ∀ f ∈ (hubPairStep dOr s p).flights, f.origin ∈ MAJOR_HUBS →
      f.destination ∈ MAJOR_HUBS → (f.origin, f.destination) ∈ upperPairs MAJOR_HUBS := by
  intro f hf
  unfold hubPairStep at hf
  dsimp only at hf
  rcases hm : dOr p.1 p.2 with _ | dist
  · rw [hm] at hf; exact h f hf
  · rw [hm] at hf
    dsimp only at hf
    by_cases hg : dist ≠ 0 ∧ 150 ≤ dist
    · rw [if_pos hg] at hf
      rcases List.mem_append.mp hf with h1 | h2
      · exact h f h1
      · rw [List.mem_singleton.mp h2]
        intro _ _
        rw [Prod.mk.eta]
        exact hp
    · rw [if_neg hg] at hf; exact h f hf

/-- Pass 2 only appends flights with a non-hub endpoint. -/
theorem hub_inv_spokeHubStep (dOr : DistOracle) (airport : String) (s : GenState)
    (hub : String) (hair : airport ∉ MAJOR_HUBS)
    (h : ∀ f ∈ s.flights, f.origin ∈ MAJOR_HUBS → f.destination ∈ MAJOR_HUBS →
      (f.origin, f.destination) ∈ upperPairs MAJOR_HUBS) :
    ∀ f ∈ (spokeHubStep dOr airport s hub).flights, f.origin ∈ MAJOR_HUBS →
      f.destination ∈ MAJOR_HUBS → (f.origin, f.destination) ∈ upperPairs MAJOR_HUBS := by
  intro f hf
  unfold spokeHubStep at hf
  rcases hm : dOr airport hub with _ | dist
  · rw [hm] at hf; exact h f hf
  · rw [hm] at hf
    dsimp only at hf
    by_cases hg : dist ≠ 0 ∧ 150 ≤ dist
    · rw [if_pos hg] at hf
      rcases List.mem_append.mp hf with h1 | h2
      · exact h f h1
      · rcases List.mem_cons.mp h2 with heq | h3
        · rw [heq]; intro ho _; exact absurd ho hair
        · rw [List.mem_singleton.mp h3]; intro _ hd; exact absurd hd hair
    · rw [if_neg hg] at hf; exact h f hf

/-- Pass 2 outer step preserves the both-hubs origin-order invariant. -/
theorem hub_inv_spokeStep (dOr : DistOracle) (s : GenState) (airport : String)
    (h : ∀ f ∈ s.flights, f.origin ∈ MAJOR_HUBS → f.destination ∈ MAJOR_HUBS →
      (f.origin, f.destination) ∈ upperPairs MAJOR_HUBS) :
    ∀ f ∈ (spokeStep dOr s airport).flights, f.origin ∈ MAJOR_HUBS →
      f.destination ∈ MAJOR_HUBS → (f.origin, f.destination) ∈ upperPairs MAJOR_HUBS := by
  unfold spokeStep
  split
  · exact h
  · rename_i hair
    exact foldl_preserves _
      (fun s' => ∀ f ∈ s'.flights, f.origin ∈ MAJOR_HUBS → f.destination ∈ MAJOR_HUBS →
        (f.origin, f.destination) ∈ upperPairs MAJOR_HUBS)
      MAJOR_HUBS s (fun s' x _ hx => hub_inv_spokeHubStep dOr airport s' x hair hx) h

/-- Pass 3 only appends flights between two non-hub airports. -/
theorem hub_inv_directPairStep (dOr : DistOracle) (s : GenState) (p : String × String)
    (h : ∀ f ∈ s.flights, f.origin ∈ MAJOR_HUBS → f.destination ∈ MAJOR_HUBS →
      (f.origin, f.destination) ∈ upperPairs MAJOR_HUBS) :
    ∀ f ∈ (directPairStep dOr s p).flights, f.origin ∈ MAJOR_HUBS →
      f.destination ∈ MAJOR_HUBS → (f.origin, f.destination) ∈ upperPairs MAJOR_HUBS := by
  intro f hf
  unfold directPairStep at hf
  dsimp only at hf
  by_cases h1 : (p.1, p.2) ∈ s.processed
  · rw [if_pos h1] at hf; exact h f hf
  · rw [if_neg h1] at hf
    by_cases h2 : p.1 ∈ MAJOR_HUBS ∧ p.2 ∈ MAJOR_HUBS
    · rw [if_pos h2] at hf; exact h f hf
    · rw [if_neg h2] at hf
      by_cases h3 : p.1 ∈ MAJOR_HUBS ∨ p.2 ∈ MAJOR_HUBS
      · rw [if_pos h3] at hf; exact h f hf
      · rw [if_neg h3] at hf
        rcases hm : dOr p.1 p.2 with _ | dist
        · rw [hm] at hf; exact h f hf
        · rw [hm] at hf
          dsimp only at hf
          by_cases hg : dist ≠ 0 ∧ 150 ≤ dist
          · rw [if_pos hg] at hf
            by_cases hs : should_create_direct_flight dOr p.1 p.2 dist MAJOR_HUBS = true
            · rw [if_pos hs] at hf
              rcases List.mem_append.mp hf with ha | hb
              · exact h f ha
              · rcases List.mem_cons.mp hb with heq | hb2
                · rw [heq]; intro ho _; exact absurd (Or.inl ho) h3
                · rw [List.mem_singleton.mp hb2]
                  intro _ hd; exact absurd (Or.inl hd) h3
            · rw [if_neg hs] at hf; exact h f hf
          · rw [if_neg hg] at hf; exact h f hf

/-- In any generator run, a flight whose endpoints are both hubs is oriented
as in the upper-triangle hub enumeration (pass 1 stores only one direction). -/
theorem generate_hub_inv (dOr : DistOracle) :
    ∀ f ∈ (generate_state dOr).flights, f.origin ∈ MAJOR_HUBS →
      f.destination ∈ MAJOR_HUBS → (f.origin, f.destination) ∈ upperPairs MAJOR_HUBS := by
  unfold generate_state
  exact foldl_preserves _
    (fun s => ∀ f ∈ s.flights, f.origin ∈ MAJOR_HUBS → f.destination ∈ MAJOR_HUBS →
      (f.origin, f.destination) ∈ upperPairs MAJOR_HUBS) _ _
    (fun s' x _ hx => hub_inv_directPairStep dOr s' x hx)
    (foldl_preserves _ _ _ _
      (fun s' x _ hx => hub_inv_spokeStep dOr s' x hx)
      (foldl_preserves _ _ _ (⟨[], []⟩ : GenState)
        (fun s' x hxl hx => hub_inv_hubPairStep dOr s' x hxl hx)
        (fun f hf => absurd hf (List.not_mem_nil f))))

/-- If the hub pair `(hub1, hub2)` occurs in the upper-triangle enumeration
with a truthy distance of at least 150, pass 1 appends the edge
`hub1 -> hub2`, and later passes never remove it. -/
theorem mem_foldl_hubPairStep (dOr : DistOracle) (hub1 hub2 : String) (v : ℚ)
    (hd : dOr hub1 hub2 = some v) (hv0 : v ≠ 0) (hv : 150 ≤ v) :
    ∀ (l : List (String × String)) (s : GenState), (hub1, hub2) ∈ l →
      Flight.mk hub1 hub2 v true none ∈ (l.foldl (hubPairStep dOr) s).flights := by
  intro l
  induction l with
  | nil => intro s hmem; cases hmem
  | cons p rest ih =>
    intro s hmem
    rw [List.foldl_cons]
    rcases List.mem_cons.mp hmem with heq | hrest
    · have hstep : Flight.mk hub1 hub2 v true none ∈ (hubPairStep dOr s p).flights := by
        rw [← heq]
        unfold hubPairStep
        dsimp only
        rw [hd]
        dsimp only
        rw [if_pos ⟨hv0, hv⟩]
        exact List.mem_append_right _ (List.mem_singleton.mpr rfl)
      exact foldl_preserves _ (fun s' => Flight.mk hub1 hub2 v true none ∈ s'.flights)
        rest _ (fun s' x _ hx => flights_mono_hubPairStep dOr s' x _ hx) hstep
    · exact ih _ hrest

/-- Hub-pair edge membership in the full generator output. -/
theorem mem_generate_hub_edge (dOr : DistOracle) (hub1 hub2 : String) (v : ℚ)
    (hp : (hub1, hub2) ∈ upperPairs MAJOR_HUBS) (hd : dOr hub1 hub2 = some v)
    (hv0 : v ≠ 0) (hv : 150 ≤ v) :
    Flight.mk hub1 hub2 v true none ∈ generate_flight_network dOr := by
  unfold generate_flight_network generate_state
  have h1 := mem_foldl_hubPairStep dOr hub1 hub2 v hd hv0 hv
    (upperPairs MAJOR_HUBS) ⟨[], []⟩ hp
  have h2 := foldl_preserves _ (fun s' => Flight.mk hub1 hub2 v true none ∈ s'.flights)
    US_AIRPORTS _ (fun s' x _ hx => flights_mono_spokeStep dOr s' x _ hx) h1
  exact foldl_preserves _ (fun s' => Flight.mk hub1 hub2 v true none ∈ s'.flights)
    (upperPairs US_AIRPORTS) _ (fun s' x _ hx => flights_mono_directPairStep dOr s' x _ hx) h2

set_option maxRecDepth 2000 in
/-- C2 counterexample: at an oracle resolving hub pairs to 1000 miles, the
unordered hub pair ATL-DFW satisfies every premise of the claim, yet the
generated sequence contains no edge in the direction DFW -> ATL (pass 1
appends a single directed edge per hub pair). -/
theorem c2_counterexample :
    ("ATL") ∈ MAJOR_HUBS ∧ ("DFW") ∈ MAJOR_HUBS ∧ ("ATL") ≠ ("DFW") ∧
    dHubOnly ("DFW") ("ATL") = some 1000 ∧ (150 : ℚ) ≤ 1000 ∧
    (generate_flight_network dHubOnly).filter
      (fun f => f.origin == ("DFW") && f.destination == ("ATL")) = [] := by
  refine ⟨by decide, by decide, by decide, by with_unfolding_all decide, by norm_num, ?_⟩
  rw [List.filter_eq_nil_iff]
  intro f hf hpred
  have hO : f.origin = ("DFW") ∧ f.destination = ("ATL") := by
    simpa using hpred
  have hmem := generate_hub_inv dHubOnly f hf
    (by rw [hO.1]; decide) (by rw [hO.2]; decide)
  rw [hO.1, hO.2] at hmem
  exact absurd hmem (by decide)

/-- C2 (amended): for every hub pair in the order enumerated by the
hub-to-hub pass, with a truthy distance of at least 150 miles, the edge
sequence contains the single directed edge `hub1 -> hub2` (the reverse
orientation is not stored by that pass). -/
theorem c2_amended (dOr : DistOracle) (hub1 hub2 : String) (v : ℚ)
    (hp : (hub1, hub2) ∈ upperPairs MAJOR_HUBS) (hd : dOr hub1 hub2 = some v)
    (hv0 : v ≠ 0) (hv : 150 ≤ v) :
    Flight.mk hub1 hub2 v true none ∈ generate_flight_network dOr :=
  mem_generate_hub_edge dOr hub1 hub2 v hp hd hv0 hv

set_option maxRecDepth 2000 in
/-- C2 witness: the ATL -> DFW edge at the hub-only oracle. -/
theorem c2_witness :
    Flight.mk ("ATL") ("DFW") 1000 true none ∈ generate_flight_network dHubOnly :=
  c2_amended dHubOnly ("ATL") ("DFW") 1000 (by decide)
    (by with_unfolding_all decide) (by norm_num) (by norm_num)

/-- C3: every edge produced by `generate_flight_network` is at least 150
miles long, and consequently `verify_network_constraints` on any generator
output returns `(True, [])`. -/
theorem c3_theorem (dOr : DistOracle) :
    (∀ f ∈ generate_flight_network dOr, 150 ≤ f.distance) ∧
    verify_network_constraints (generate_flight_network dOr) = (true, []) := by
  have hinv := generate_dist_inv dOr
  refine ⟨hinv, ?_⟩
  unfold verify_network_constraints
  have hfil : (generate_flight_network dOr).filter
      (fun f => decide (f.distance < 150)) = [] := by
    rw [List.filter_eq_nil_iff]
    intro f hf
    simpa using not_lt.mpr (hinv f hf)
  unfold generate_flight_network at hfil ⊢
  rw [hfil]
  rfl

set_option maxRecDepth 2000 in
/-- C3 witness: the invariant and the auditor verdict at the hub-only
oracle, with the membership hypothesis discharged at the ATL -> DFW edge. -/
theorem c3_witness :
    (150 : ℚ) ≤ (Flight.mk ("ATL") ("DFW") 1000 true none).distance ∧
    verify_network_constraints (generate_flight_network dHubOnly) = (true, []) :=
  ⟨(c3_theorem dHubOnly).1 (Flight.mk ("ATL") ("DFW") 1000 true none)
    (mem_generate_hub_edge dHubOnly ("ATL") ("DFW") 1000 (by decide)
      (by with_unfolding_all decide) (by norm_num) (by norm_num)),
   (c3_theorem dHubOnly).2⟩

/-- Pairs added to the processed set by pass 1 are the hub pair and its
reverse. -/
theorem processed_hubPairStep (dOr : DistOracle) (s : GenState)
    (p q : String × String) (hq : q ∈ (hubPairStep dOr s p).processed) :
    q ∈ s.processed ∨ q = p ∨ q = (p.2, p.1) := by
  unfold hubPairStep at hq
  dsimp only at hq
  rcases hm : dOr p.1 p.2 with _ | dist
  · rw [hm] at hq; exact Or.inl hq
  · rw [hm] at hq
    dsimp only at hq
    by_cases hg : dist ≠ 0 ∧ 150 ≤ dist
    · rw [if_pos hg] at hq
      rcases (addPair_mem_iff _ _ _).mp hq with h | h
      · exact Or.inr (Or.inr h)
      · rcases (addPair_mem_iff _ _ _).mp h with h2 | h2
        · rw [Prod.mk.eta] at h2; exact Or.inr (Or.inl h2)
        · exact Or.inl h2
    · rw [if_neg hg] at hq; exact Or.inl hq

/-- Pairs added to the processed set by pass 2 pair the spoke airport with
the current hub. -/
theorem processed_spokeHubStep (dOr : DistOracle) (airport : String)
    (s : GenState) (hub : String) (q : String × String)
    (hq : q ∈ (spokeHubStep dOr airport s hub).processed) :
    q ∈ s.processed ∨ q = (airport, hub) ∨ q = (hub, airport) := by
  unfold spokeHubStep at hq
  rcases hm : dOr airport hub with _ | dist
  · rw [hm] at hq; exact Or.inl hq
  · rw [hm] at hq
    dsimp only at hq
    by_cases hg : dist ≠ 0 ∧ 150 ≤ dist
    · rw [if_pos hg] at hq
      rcases (addPair_mem_iff _ _ _).mp hq with h | h
      · exact Or.inr (Or.inr h)
      · rcases (addPair_mem_iff _ _ _).mp h with h2 | h2
        · exact Or.inr (Or.inl h2)
        · exact Or.inl h2
    · rw [if_neg hg] at hq; exact Or.inl hq

/-- Pairs added to the processed set by pass 3 are the evaluated pair and its
reverse, and only when the distance guard and the efficiency test both
succeed (rejected pairs are NOT marked processed). -/
theorem processed_directPairStep (dOr : DistOracle) (s : GenState)
    (p q : String × String) (hq : q ∈ (directPairStep dOr s p).processed) :
    q ∈ s.processed ∨ ((q = p ∨ q = (p.2, p.1)) ∧ ∃ dd : ℚ,
      dOr p.1 p.2 = some dd ∧ dd ≠ 0 ∧ 150 ≤ dd ∧
      should_create_direct_flight dOr p.1 p.2 dd MAJOR_HUBS = true) := by
  unfold directPairStep at hq
  dsimp only at hq
  by_cases h1 : (p.1, p.2) ∈ s.processed
  · rw [if_pos h1] at hq; exact Or.inl hq
  · rw [if_neg h1] at hq
    by_cases h2 : p.1 ∈ MAJOR_HUBS ∧ p.2 ∈ MAJOR_HUBS
    · rw [if_pos h2] at hq; exact Or.inl hq
    · rw [if_neg h2] at hq
      by_cases h3 : p.1 ∈ MAJOR_HUBS ∨ p.2 ∈ MAJOR_HUBS
      · rw [if_pos h3] at hq; exact Or.inl hq
      · rw [if_neg h3] at hq
        rcases hm : dOr p.1 p.2 with _ | dist
        · rw [hm] at hq; exact Or.inl hq
        · rw [hm] at hq
          dsimp only at hq
          by_cases hg : dist ≠ 0 ∧ 150 ≤ dist
          · rw [if_pos hg] at hq
            by_cases hs : should_create_direct_flight dOr p.1 p.2 dist MAJOR_HUBS = true
            · rw [if_pos hs] at hq
              rcases (addPair_mem_iff _ _ _).mp hq with h | h
              · exact Or.inr ⟨Or.inr h, dist, rfl, hg.1, hg.2, hs⟩
              · rcases (addPair_mem_iff _ _ _).mp h with h4 | h4
                · rw [Prod.mk.eta] at h4
                  exact Or.inr ⟨Or.inl h4, dist, rfl, hg.1, hg.2, hs⟩
                · exact Or.inl h4
            · rw [if_neg hs] at hq; exact Or.inl hq
          · rw [if_neg hg] at hq; exact Or.inl hq

set_option maxRecDepth 6000 in
/-- At the rejection oracle, the LAX-JFK pair is never marked processed by a
full generator run: passes 1 and 2 never touch it, and pass 3 rejects it. -/
theorem lax_jfk_not_processed :
    (("LAX"), ("JFK")) ∉ (generate_state dReject).processed := by
  have hstep1 : ∀ (s : GenState) (x : String × String), x ∈ upperPairs MAJOR_HUBS →
      (("LAX"), ("JFK")) ∉ s.processed →
      (("LAX"), ("JFK")) ∉ (hubPairStep dReject s x).processed := by
    intro s x hx hP hmem
    rcases processed_hubPairStep dReject s x _ hmem with h | h | h
    · exact hP h
    · rw [← h] at hx; exact absurd hx (by decide)
    · have e1 := congrArg Prod.fst h
      have e2 := congrArg Prod.snd h
      dsimp only at e1 e2
      have hx2 : x = ((("JFK")), (("LAX"))) := by
        rw [← @Prod.mk.eta _ _ x, ← e1, ← e2]
      rw [hx2] at hx
      exact absurd hx (by decide)
  have hstep2 : ∀ (s : GenState) (x : String), x ∈ US_AIRPORTS →
      (("LAX"), ("JFK")) ∉ s.processed →
      (("LAX"), ("JFK")) ∉ (spokeStep dReject s x).processed := by
    intro s x _ hP
    unfold spokeStep
    split
    · exact hP
    · refine foldl_preserves _ (fun s' => (("LAX"), ("JFK")) ∉ s'.processed)
        MAJOR_HUBS s ?_ hP
      intro s' hub hhub hP' hmem
      rcases processed_spokeHubStep dReject x s' hub _ hmem with h | h | h
      · exact hP' h
      · have e2 := congrArg Prod.snd h
        dsimp only at e2
        rw [← e2] at hhub
        exact absurd hhub (by decide)
      · have e1 := congrArg Prod.fst h
        dsimp only at e1
        rw [← e1] at hhub
        exact absurd hhub (by decide)
  have hstep3 : ∀ (s : GenState) (x : String × String), x ∈ upperPairs US_AIRPORTS →
      (("LAX"), ("JFK")) ∉ s.processed →
      (("LAX"), ("JFK")) ∉ (directPairStep dReject s x).processed := by
    intro s x _ hP hmem
    rcases processed_directPairStep dReject s x _ hmem with h | ⟨hqe, dd, hdd, _, _, hsc⟩
    · exact hP h
    · rcases hqe with h | h
      · rw [← h] at hdd hsc
        have heval : dReject ("LAX") ("JFK") = some 2000 := by with_unfolding_all decide
        have hdd2000 : dd = 2000 := Option.some.inj (hdd.symm.trans heval)
        rw [hdd2000] at hsc
        have hfalse : should_create_direct_flight dReject ("LAX") ("JFK") 2000 MAJOR_HUBS
            = false := by with_unfolding_all decide
        rw [hfalse] at hsc
        exact Bool.false_ne_true hsc
      · have e1 := congrArg Prod.fst h
        have e2 := congrArg Prod.snd h
        dsimp only at e1 e2
        rw [← e2, ← e1] at hdd
        have heval : dReject ("JFK") ("LAX") = none := by with_unfolding_all decide
        rw [heval] at hdd
        cases hdd
  unfold generate_state
  exact foldl_preserves _ (fun s => (("LAX"), ("JFK")) ∉ s.processed) _ _
    (fun s' x hxl hx => hstep3 s' x hxl hx)
    (foldl_preserves _ _ _ _
      (fun s' x hxl hx => hstep2 s' x hxl hx)
      (foldl_preserves _ _ _ (⟨[], []⟩ : GenState)
        (fun s' x hxl hx => hstep1 s' x hxl hx)
        (List.not_mem_nil _)))

set_option maxRecDepth 6000 in
/-- C4 counterexample: at the rejection oracle the non-hub pair LAX-JFK is
evaluated by the direct pass (it occurs in the pair enumeration, resolves to
2000 miles and reaches the efficiency test), the test rejects it, the loop
body leaves the state unchanged, and the pair is NOT in the processed set of
the full generator run — contradicting "marked processed regardless of
outcome". -/
theorem c4_counterexample :
    ("LAX") ∉ MAJOR_HUBS ∧ ("JFK") ∉ MAJOR_HUBS ∧
    (("LAX"), ("JFK")) ∈ upperPairs US_AIRPORTS ∧
    dReject ("LAX") ("JFK") = some 2000 ∧ (150 : ℚ) ≤ 2000 ∧
    should_create_direct_flight dReject ("LAX") ("JFK") 2000 MAJOR_HUBS = false ∧
    directPairStep dReject ⟨[], []⟩ ((("LAX"), ("JFK"))) = ⟨[], []⟩ ∧
    (("LAX"), ("JFK")) ∉ (generate_state dReject).processed :=
  ⟨by decide, by decide, by decide, by with_unfolding_all decide, by norm_num,
   by with_unfolding_all decide, by with_unfolding_all decide,
   lax_jfk_not_processed⟩

/-- C4 (amended): in the direct pass, an evaluated pair of two non-hub
airports is marked processed exactly when a direct edge is created for it,
i.e. when its distance is truthy, at least 150 miles, and
`should_create_direct_flight` accepts; pairs rejected by the distance check
or the efficiency test are NOT marked processed. -/
theorem c4_amended (dOr : DistOracle) (s : GenState) (origin destination : String)
    (hnp : (origin, destination) ∉ s.processed)
    (ho : origin ∉ MAJOR_HUBS) (hd : destination ∉ MAJOR_HUBS) :
    (origin, destination) ∈ (directPairStep dOr s (origin, destination)).processed ↔
      ∃ q : ℚ, dOr origin destination = some q ∧ q ≠ 0 ∧ 150 ≤ q ∧
        should_create_direct_flight dOr origin destination q MAJOR_HUBS = true := by
  unfold directPairStep
  dsimp only
  rw [if_neg hnp, if_neg (fun hand => ho hand.1),
    if_neg (fun hor => hor.elim (fun h => ho h) (fun h => hd h))]
  rcases hm : dOr origin destination with _ | dist
  · simpa using hnp
  · dsimp only
    by_cases hg : dist ≠ 0 ∧ 150 ≤ dist
    · rw [if_pos hg]
      by_cases hs : should_create_direct_flight dOr origin destination dist MAJOR_HUBS = true
      · rw [if_pos hs]
        constructor
        · intro _; exact ⟨dist, rfl, hg.1, hg.2, hs⟩
        · intro _
          exact (addPair_mem_iff _ _ _).mpr
            (Or.inr ((addPair_mem_iff _ _ _).mpr (Or.inl rfl)))
      · rw [if_neg hs]
        constructor
        · intro hmem; exact absurd hmem hnp
        · rintro ⟨q, hq, _, _, hsc⟩
          rw [Option.some.inj hq] at hs
          exact absurd hsc hs
    · rw [if_neg hg]
      constructor
      · intro hmem; exact absurd hmem hnp
      · rintro ⟨q, hq, hq0, hq150, _⟩
        rw [Option.some.inj hq] at hg
        exact absurd ⟨hq0, hq150⟩ hg

set_option maxRecDepth 6000 in
/-- C4 witness: at the acceptance oracle the LAX-JFK pair passes the
efficiency test and is marked processed by the loop body. -/
theorem c4_witness :
    (("LAX"), ("JFK")) ∈ (directPairStep dAccept ⟨[], []⟩ ((("LAX"), ("JFK")))).processed :=
  (c4_amended dAccept ⟨[], []⟩ ("LAX") ("JFK") (List.not_mem_nil _)
    (by decide) (by decide)).mpr
    ⟨2000, by with_unfolding_all decide, by norm_num, by norm_num,
     by with_unfolding_all decide⟩

/-- C6: `get_route_options` always returns a sequence sorted ascending by
total distance, and returns the empty sequence (rather than failing) when no
direct edge and no hub connection exists between the endpoints. -/
theorem c6_theorem (origin destination : String) (flights : List Flight) :
    List.Pairwise (fun a b : RouteOption => a.distance ≤ b.distance)
      (get_route_options origin destination flights) ∧
    ((∀ f ∈ flights, ¬(f.origin = origin ∧ f.destination = destination ∧
        f.is_direct = true)) →
      (∀ hub ∈ MAJOR_HUBS, ¬((∃ f ∈ flights, f.origin = origin ∧ f.destination = hub) ∧
        (∃ g ∈ flights, g.origin = hub ∧ g.destination = destination))) →
      get_route_options origin destination flights = []) := by
  constructor
  · have hs := @List.sorted_mergeSort RouteOption
      (fun a b : RouteOption => decide (a.distance ≤ b.distance))
      (fun a b c hab hbc => by
        simp only [decide_eq_true_eq] at *
        exact le_trans hab hbc)
      (fun a b => by
        simp only [Bool.or_eq_true, decide_eq_true_eq]
        exact le_total a.distance b.distance)
      (routeCandidates origin destination flights)
    unfold get_route_options
    exact hs.imp (fun h => by simpa using h)
  · intro hdirect hhub
    unfold get_route_options
    have hcand : routeCandidates origin destination flights = [] := by
      unfold routeCandidates
      have hfd : flights.filter
          (fun f => f.origin == origin && f.destination == destination && f.is_direct)
          = [] := by
        rw [List.filter_eq_nil_iff]
        intro f hf hpred
        rw [Bool.and_eq_true, Bool.and_eq_true] at hpred
        exact hdirect f hf ⟨eq_of_beq hpred.1.1, eq_of_beq hpred.1.2, hpred.2⟩
      rw [hfd]
      have hfm : MAJOR_HUBS.filterMap (fun hub =>
          if hub = origin ∨ hub = destination then none
          else
            match flights.filter (fun f => f.origin == origin && f.destination == hub),
                  flights.filter (fun f => f.origin == hub && f.destination == destination) with
            | f1 :: _, f2 :: _ =>
              some (⟨("hub_connection"), [origin, hub, destination],
                f1.distance + f2.distance, 1, some hub⟩ : RouteOption)
            | _, _ => none) = [] := by
        rw [List.filterMap_eq_nil_iff]
        intro hub hhubmem
        by_cases hoe : hub = origin ∨ hub = destination
        · rw [if_pos hoe]
        · rw [if_neg hoe]
          have hno := hhub hub hhubmem
          rcases hl1 : flights.filter (fun f => f.origin == origin && f.destination == hub)
            with _ | ⟨f1, r1⟩
          · rw [hl1]
          · rcases hl2 : flights.filter
                (fun f => f.origin == hub && f.destination == destination)
              with _ | ⟨f2, r2⟩
            · rw [hl1, hl2]
            · exfalso
              apply hno
              constructor
              · have hf1 := List.mem_filter.mp
                  (hl1 ▸ List.mem_cons_self f1 r1)
                refine ⟨f1, hf1.1, ?_⟩
                have := hf1.2
                simp only [Bool.and_eq_true, beq_iff_eq] at this
                exact this
              · have hf2 := List.mem_filter.mp
                  (hl2 ▸ List.mem_cons_self f2 r2)
                refine ⟨f2, hf2.1, ?_⟩
                have := hf2.2
                simp only [Bool.and_eq_true, beq_iff_eq] at this
                exact this
      rw [hfm]
      rfl
    rw [hcand]
    exact List.mergeSort_nil

/-- C6 witness: the empty flight list yields the empty, trivially sorted
option sequence. -/
theorem c6_witness :
    List.Pairwise (fun a b : RouteOption => a.distance ≤ b.distance)
      (get_route_options ("LAX") ("JFK") []) ∧
    get_route_options ("LAX") ("JFK") [] = [] :=
  ⟨(c6_theorem ("LAX") ("JFK") []).1,
   (c6_theorem ("LAX") ("JFK") []).2
     (fun f hf => absurd hf (List.not_mem_nil f))
     (fun hub _ hc => by
       rcases hc.1 with ⟨f, hf, _⟩
       exact absurd hf (List.not_mem_nil f))⟩

/-- Squared sine of a half-difference is symmetric in the two endpoints. -/
theorem hav_sin_sq_neg (x y : ℝ) :
    Real.sin ((x - y) / 2) ^ 2 = Real.sin ((y - x) / 2) ^ 2 := by
  rw [show (y - x) / 2 = -((x - y) / 2) by ring, Real.sin_neg]
  ring

/-- The haversine intermediate term is symmetric in the two points. -/
theorem haversine_a_symm (lat1 lon1 lat2 lon2 : ℝ) :
    haversine_a lat1 lon1 lat2 lon2 = haversine_a lat2 lon2 lat1 lon1 := by
  unfold haversine_a radians
  dsimp only
  rw [hav_sin_sq_neg (lat2 * (Real.pi / 180)) (lat1 * (Real.pi / 180)),
    hav_sin_sq_neg (lon2 * (Real.pi / 180)) (lon1 * (Real.pi / 180))]
  ring

/-- The haversine distance is symmetric in the two points. -/
theorem haversine_symm (lat1 lon1 lat2 lon2 : ℝ) :
    haversine_distance lat1 lon1 lat2 lon2 = haversine_distance lat2 lon2 lat1 lon1 := by
  unfold haversine_distance
  rw [haversine_a_symm]

/-- C8: the haversine formula is symmetric in its two points, and
consequently `get_distance` is symmetric in its two codes (for every pair of
codes and every unit string, hence in particular for all valid codes). -/
theorem c8_theorem :
    (∀ lat1 lon1 lat2 lon2 : ℝ, haversine_distance lat1 lon1 lat2 lon2 =
      haversine_distance lat2 lon2 lat1 lon1) ∧
    (∀ iata1 iata2 unit : String,
      get_distance iata1 iata2 unit = get_distance iata2 iata1 unit) := by
  refine ⟨haversine_symm, ?_⟩
  intro iata1 iata2 unit
  unfold get_distance
  rcases h1 : get_airport iata1 with _ | a1 <;> rcases h2 : get_airport iata2 with _ | a2
  · rfl
  · rfl
  · rfl
  · dsimp only
    rw [haversine_symm ((a1.latitude : ℝ)) ((a1.longitude : ℝ))
      ((a2.latitude : ℝ)) ((a2.longitude : ℝ))]

/-- C7: `get_distance` returns `None` exactly when at least one code fails
catalog resolution; when both resolve it returns the haversine miles value,
multiplied by exactly 1.60934 when the unit lower-cases to "kilometers" or
"km". -/
theorem c7_theorem (iata1 iata2 unit : String) :
    (get_distance iata1 iata2 unit = none ↔
      get_airport iata1 = none ∨ get_airport iata2 = none) ∧
    (∀ a1 a2 : Airport, get_airport iata1 = some a1 → get_airport iata2 = some a2 →
      get_distance iata1 iata2 unit = some (
        if strLower unit = ("kilometers") ∨ strLower unit = ("km") then
          haversine_distance ((a1.latitude : ℝ)) ((a1.longitude : ℝ))
            ((a2.latitude : ℝ)) ((a2.longitude : ℝ)) * 1.60934
        else
          haversine_distance ((a1.latitude : ℝ)) ((a1.longitude : ℝ))
            ((a2.latitude : ℝ)) ((a2.longitude : ℝ)))) := by
  constructor
  · unfold get_distance
    rcases h1 : get_airport iata1 with _ | a1 <;> rcases h2 : get_airport iata2 with _ | a2
    · simp
    · simp
    · simp
    · dsimp only
      constructor
      · intro hif
        exfalso
        revert hif
        split <;> simp
      · rintro (h | h) <;> cases h
  · intro a1 a2 e1 e2
    unfold get_distance
    rw [e1, e2]
    dsimp only
    split
    · rfl
    · rfl

/-- C7 witness: an unresolved code yields `None`; ATL-JFK in "km" yields the
haversine miles value times 1.60934. -/
theorem c7_witness :
    get_distance ("ATL") ("ZZZ") ("miles") = none ∧
    get_distance ("ATL") ("JFK") ("km") = some
      (haversine_distance (((33.6407 : ℚ) : ℝ)) (((-84.4277 : ℚ) : ℝ))
        (((40.6413 : ℚ) : ℝ)) (((-73.7781 : ℚ) : ℝ)) * 1.60934) := by
  constructor
  · exact (c7_theorem ("ATL") ("ZZZ") ("miles")).1.mpr
      (Or.inr (by simp [get_airport, AIRPORTS, strUpper, List.lookup]))
  · have h := (c7_theorem ("ATL") ("JFK") ("km")).2
      ⟨("ATL"), ("Hartsfield-Jackson Atlanta International Airport"), ("Atlanta"), ("GA"),
        33.6407, -84.4277, ("Metro Atlanta")⟩
      ⟨("JFK"), ("John F. Kennedy International Airport"), ("New York City"), ("NY"),
        40.6413, -73.7781, ("New York Metro")⟩
      (by simp [get_airport, AIRPORTS, strUpper, List.lookup])
      (by simp [get_airport, AIRPORTS, strUpper, List.lookup])
    rw [h, if_pos (Or.inr (by decide : strLower ("km") = ("km")))]

/-- Rewriting the haversine term via half-angle formulas and the cosine
difference identity. -/
theorem sin_sq_half_key (p q v : ℝ) :
    Real.sin ((q - p) / 2) ^ 2 + Real.cos p * Real.cos q * Real.sin (v / 2) ^ 2 =
      (1 - (Real.sin p * Real.sin q + Real.cos p * Real.cos q * Real.cos v)) / 2 := by
  have h1 := Real.sin_sq_eq_half_sub ((q - p) / 2)
  have h2 := Real.sin_sq_eq_half_sub (v / 2)
  rw [h1, h2, show 2 * ((q - p) / 2) = q - p by ring, show 2 * (v / 2) = v by ring,
    Real.cos_sub]
  ring

/-- The spherical-cosine expression is bounded by 1 in absolute value. -/
theorem trig_bound (p q v : ℝ) :
    -1 ≤ Real.sin p * Real.sin q + Real.cos p * Real.cos q * Real.cos v ∧
    Real.sin p * Real.sin q + Real.cos p * Real.cos q * Real.cos v ≤ 1 := by
  have hc1 := Real.cos_le_one (p - q)
  have hc2 := Real.neg_one_le_cos (p - q)
  have hc3 := Real.cos_le_one (p + q)
  have hc4 := Real.neg_one_le_cos (p + q)
  have hv1 := Real.cos_le_one v
  have hv2 := Real.neg_one_le_cos v
  rw [Real.cos_sub] at hc1 hc2
  rw [Real.cos_add] at hc3 hc4
  constructor
  · rcases le_or_lt 0 (Real.cos p * Real.cos q) with h | h
    · nlinarith [mul_nonneg h (by linarith : (0:ℝ) ≤ 1 + Real.cos v)]
    · nlinarith [mul_nonneg (by linarith : (0:ℝ) ≤ -(Real.cos p * Real.cos q))
        (by linarith : (0:ℝ) ≤ 1 - Real.cos v)]
  · rcases le_or_lt 0 (Real.cos p * Real.cos q) with h | h
    · nlinarith [mul_nonneg h (by linarith : (0:ℝ) ≤ 1 - Real.cos v)]
    · nlinarith [mul_nonneg (by linarith : (0:ℝ) ≤ -(Real.cos p * Real.cos q))
        (by linarith : (0:ℝ) ≤ 1 + Real.cos v)]

/-- The haversine intermediate term lies in `[0, 1]` for all real inputs. -/
theorem haversine_a_bounds (lat1 lon1 lat2 lon2 : ℝ) :
    0 ≤ haversine_a lat1 lon1 lat2 lon2 ∧ haversine_a lat1 lon1 lat2 lon2 ≤ 1 := by
  unfold haversine_a radians
  dsimp only
  rw [sin_sq_half_key (lat1 * (Real.pi / 180)) (lat2 * (Real.pi / 180))
    (lon2 * (Real.pi / 180) - lon1 * (Real.pi / 180))]
  have hb := trig_bound (lat1 * (Real.pi / 180)) (lat2 * (Real.pi / 180))
    (lon2 * (Real.pi / 180) - lon1 * (Real.pi / 180))
  constructor
  · linarith [hb.2]
  · linarith [hb.1]

/-- C9: for every input, the haversine intermediate term `a` lies in `[0,1]`,
so `sqrt(a)` lies in `[0,1]` (inside the domain of `asin`) and the returned
distance is well defined and nonnegative. -/
theorem c9_theorem (lat1 lon1 lat2 lon2 : ℝ) :
    0 ≤ haversine_a lat1 lon1 lat2 lon2 ∧
    haversine_a lat1 lon1 lat2 lon2 ≤ 1 ∧
    0 ≤ Real.sqrt (haversine_a lat1 lon1 lat2 lon2) ∧
    Real.sqrt (haversine_a lat1 lon1 lat2 lon2) ≤ 1 ∧
    0 ≤ haversine_distance lat1 lon1 lat2 lon2 := by
  obtain ⟨h0, h1⟩ := haversine_a_bounds lat1 lon1 lat2 lon2
  refine ⟨h0, h1, Real.sqrt_nonneg _, Real.sqrt_le_one.mpr h1, ?_⟩
  unfold haversine_distance
  dsimp only
  have harc : 0 ≤ Real.arcsin (Real.sqrt (haversine_a lat1 lon1 lat2 lon2)) :=
    Real.arcsin_nonneg.mpr (Real.sqrt_nonneg _)
  exact mul_nonneg (by norm_num) (by linarith)
